import Mathlib

/-!
Shallow embedding of the AITEC costos backend (index.js iterations).
Numbers are modelled as exact rationals; the result of the JavaScript
conversion Number(x) is modelled by JSNum, which distinguishes NaN and the
two infinities from finite values.  Math.round(x) is floor (x + 1/2).
-/

namespace Aitec

/- ------------------ Definitions ------------------ -/

/-- Result of the JavaScript conversion Number(x): NaN, an infinity, or a
finite value (modelled as an exact rational). -/
inductive JSNum where
  | nan
  | posInf
  | negInf
  | num (q : ℚ)
deriving DecidableEq

/-- clampNumber(n, min, max, fallback) from index.js:
returns fallback when Number(n) is NaN, else Math.min(max, Math.max(min, x)).
Math.max(min, +inf) = +inf and Math.min(max, +inf) = max, so +inf maps to
max; -inf maps to Math.min(max, min). -/
def clampNumber (n : JSNum) (lo hi fb : ℚ) : ℚ :=
  match n with
  | .nan => fb
  | .posInf => hi
  | .negInf => min hi lo
  | .num q => min hi (max lo q)

/-- money(n) from index.js: Math.round of a finite value, i.e. floor (n + 1/2).
(The NaN guard in the source cannot fire in the embedding: every value
reaching money is an exact rational.) -/
def money (q : ℚ) : ℤ := (q + 1 / 2).floor

/-- Math.round(m * 100) / 100, the two-decimal rounding used for margenPosible. -/
def round2 (q : ℚ) : ℚ := (money (q * 100) : ℚ) / 100

/-- A JavaScript object field that the code reads with the nullish operator:
none models null/undefined, some n models any other value via its Number()
conversion n. -/
abbrev JNum := Option JSNum

/-- View of a JavaScript field value as used by (x || "").toString() /
String(x || ""): either a falsy value (coerced to "") or a truthy value
together with its String() conversion. -/
inductive JStr where
  | falsy
  | truthy (s : String)
deriving DecidableEq

/-- (x || "").toString(): falsy values give "", truthy values give their
String() image. -/
def jsToStr : JStr → String
  | .falsy => ""
  | .truthy s => s

/-- One raw professional line as received by computeTotals or the /ai/costeo
normalization (fields may be absent or of the wrong type). -/
structure RawProfLine where
  role : JStr := .falsy
  profile : JStr := .falsy
  quantity : JNum := none
  dedication : JNum := none
  months : JNum := none
  monthlyValue : JNum := none
  justification : JStr := .falsy
deriving DecidableEq

/-- One raw material line. -/
structure RawMatLine where
  name : JStr := .falsy
  unit : JStr := .falsy
  quantity : JNum := none
  unitPrice : JNum := none
  justification : JStr := .falsy
deriving DecidableEq

/-- The raw params.presupuestoFijo field.  The source treats null/undefined
and the empty string specially (params.presupuestoFijo != null &&
params.presupuestoFijo !== ""); any other value is taken to its Number()
conversion. -/
inductive PFijoVal where
  | missing
  | emptyStr
  | given (n : JSNum)
deriving DecidableEq

/-- Raw params object as received by computeTotals. -/
structure RawParams where
  factorPrestacional : JNum := none
  imprevistosPct : JNum := none
  margenPct : JNum := none
  presupuestoFijo : PFijoVal := .missing
deriving DecidableEq

/-- The breakdown returned by computeTotals; monetary fields are rounded
through money, margenPosible is rounded to two decimals. -/
structure CostBreakdown where
  factorPrestacional : ℚ
  imprevistosPct : ℚ
  margenPct : ℚ
  presupuestoFijo : Option ℚ
  subtotalProfesionales : ℤ
  subtotalMateriales : ℤ
  subtotalProduccion : ℤ
  imprevistos : ℤ
  totalProduccion : ℤ
  ofertaSugerida : Option ℤ
  margenPosible : Option ℚ
deriving DecidableEq

/-- clampNumber(params.factorPrestacional ?? 1.58, 1.0, 3.0, 1.58). -/
def factorOf (params : RawParams) : ℚ :=
  clampNumber (params.factorPrestacional.getD (.num 1.58)) 1 3 1.58

/-- clampNumber(params.imprevistosPct ?? 5, 0, 40, 5). -/
def imprevistosPctOf (params : RawParams) : ℚ :=
  clampNumber (params.imprevistosPct.getD (.num 5)) 0 40 5

/-- clampNumber(params.margenPct ?? 30, 0, 80, 30). -/
def margenPctOf (params : RawParams) : ℚ :=
  clampNumber (params.margenPct.getD (.num 30)) 0 80 30

/-- Cost of one professional line inside computeTotals:
qty * months * dedication * monthly * factorPrestacional, with each field
clamped exactly as in the source (1e9, 1e9, [0,2], 1e12 bounds). -/
def profCost (factorPrestacional : ℚ) (p : RawProfLine) : ℚ :=
  clampNumber (p.quantity.getD (.num 0)) 0 1000000000 0 *
    clampNumber (p.months.getD (.num 0)) 0 1000000000 0 *
    clampNumber (p.dedication.getD (.num 1)) 0 2 1 *
    clampNumber (p.monthlyValue.getD (.num 0)) 0 1000000000000 0 *
    factorPrestacional

/-- professionals.reduce((acc, p) => acc + base, 0). -/
def subtotalProfesionalesQ (factorPrestacional : ℚ) (professionals : List RawProfLine) : ℚ :=
  professionals.foldl (fun acc p => acc + profCost factorPrestacional p) 0

/-- Cost of one material line: clamped quantity times clamped unitPrice. -/
def matCost (m : RawMatLine) : ℚ :=
  clampNumber (m.quantity.getD (.num 0)) 0 1000000000000 0 *
    clampNumber (m.unitPrice.getD (.num 0)) 0 1000000000000 0

/-- materials.reduce((acc, m) => acc + qty * unitPrice, 0). -/
def subtotalMaterialesQ (materials : List RawMatLine) : ℚ :=
  materials.foldl (fun acc m => acc + matCost m) 0

/-- The exact (pre-rounding) totalProduccion local of computeTotals:
subtotalProduccion + subtotalProduccion * (imprevistosPct / 100). -/
def totalProduccionQ (professionals : List RawProfLine) (materials : List RawMatLine)
    (params : RawParams) : ℚ :=
  let s := subtotalProfesionalesQ (factorOf params) professionals + subtotalMaterialesQ materials
  s + s * (imprevistosPctOf params / 100)

/-- computeTotals from index.js (part_002 lines 61-113, identical in
part_003 lines 47-95). -/
def computeTotals (professionals : List RawProfLine) (materials : List RawMatLine)
    (params : RawParams) : CostBreakdown :=
  let factorPrestacional := factorOf params
  let imprevistosPct := imprevistosPctOf params
  let margenPct := margenPctOf params
  let subtotalProfesionales := subtotalProfesionalesQ factorPrestacional professionals
  let subtotalMateriales := subtotalMaterialesQ materials
  let subtotalProduccion := subtotalProfesionales + subtotalMateriales
  let imprevistos := subtotalProduccion * (imprevistosPct / 100)
  let totalProduccion := subtotalProduccion + imprevistos
  let presupuestoFijo : Option ℚ :=
    match params.presupuestoFijo with
    | .missing => none
    | .emptyStr => none
    | .given n => some (clampNumber n 0 1000000000000000 0)
  let margenPosible : Option ℚ :=
    match presupuestoFijo with
    | some pf => if 0 < pf then some (round2 ((pf - totalProduccion) / pf * 100)) else none
    | none => none
  { factorPrestacional := factorPrestacional
    imprevistosPct := imprevistosPct
    margenPct := margenPct
    presupuestoFijo := presupuestoFijo
    subtotalProfesionales := money subtotalProfesionales
    subtotalMateriales := money subtotalMateriales
    subtotalProduccion := money subtotalProduccion
    imprevistos := money imprevistos
    totalProduccion := money totalProduccion
    ofertaSugerida :=
      if margenPct ≥ 100 then none
      else some (money (totalProduccion / (1 - margenPct / 100)))
    margenPosible := margenPosible }

/-- The professional line of the worked example in the spec:
quantity 2, months 6, dedication 0.5, monthlyValue 5000000. -/
def exampleProf : RawProfLine where
  quantity := some (.num 2)
  months := some (.num 6)
  dedication := some (.num (1 / 2))
  monthlyValue := some (.num 5000000)

/-- The parameters of the worked example: factorPrestacional 1.58,
imprevistosPct 5, margenPct 30. -/
def exampleParams : RawParams where
  factorPrestacional := some (.num 1.58)
  imprevistosPct := some (.num 5)
  margenPct := some (.num 30)

/-- A normalized professional line as built by the /ai/costeo handler. -/
structure ProfLine where
  role : String
  profile : String
  quantity : ℚ
  dedication : ℚ
  months : ℚ
  monthlyValue : ℚ
  justification : String
deriving DecidableEq

/-- A normalized material line as built by the /ai/costeo handler. -/
structure MatLine where
  name : String
  unit : String
  quantity : ℚ
  unitPrice : ℚ
  justification : String
deriving DecidableEq

/-- Normalization of one professional line (part_002 lines 481-489):
string fields through (x || "").toString(), numeric fields through
clampNumber with the documented bounds. -/
def normalizeProf (p : RawProfLine) : ProfLine where
  role := jsToStr p.role
  profile := jsToStr p.profile
  quantity := clampNumber (p.quantity.getD (.num 0)) 0 1000000000 0
  dedication := clampNumber (p.dedication.getD (.num 1)) 0 2 1
  months := clampNumber (p.months.getD (.num 0)) 0 1000000000 0
  monthlyValue := clampNumber (p.monthlyValue.getD (.num 0)) 0 1000000000000 0
  justification := jsToStr p.justification

/-- Normalization of one material line (part_002 lines 491-497). -/
def normalizeMat (m : RawMatLine) : MatLine where
  name := jsToStr m.name
  unit := jsToStr m.unit
  quantity := clampNumber (m.quantity.getD (.num 0)) 0 1000000000000 0
  unitPrice := clampNumber (m.unitPrice.getD (.num 0)) 0 1000000000000 0
  justification := jsToStr m.justification

/-- The decoded oracle output as seen by the normalization step.
none for professionals/materials models a falsy field ((plan.professionals
|| []) yields []); none for assumptions models a non-array
(Array.isArray(plan.assumptions) false yields []).  Assumption elements are
modelled by their String() image. -/
structure RawPlan where
  assumptions : Option (List String) := none
  professionals : Option (List RawProfLine) := none
  materials : Option (List RawMatLine) := none
deriving DecidableEq

/-- The normalized plan surfaced by the handler. -/
structure EstimationPlan where
  assumptions : List String
  professionals : List ProfLine
  materials : List MatLine
deriving DecidableEq

/-- The normalization step of POST /ai/costeo (part_002 lines 481-511):
plan.assumptions mapped through String (identity on the modelled images),
line items normalized field by field, missing arrays became empty. -/
def normalizePlan (plan : RawPlan) : EstimationPlan where
  assumptions := plan.assumptions.getD []
  professionals := (plan.professionals.getD []).map normalizeProf
  materials := (plan.materials.getD []).map normalizeMat

/-- A normalized professional line seen again as a JavaScript value: strings
are truthy unless empty, numbers are finite non-nullish values. -/
def profToRaw (p : ProfLine) : RawProfLine where
  role := if p.role = "" then .falsy else .truthy p.role
  profile := if p.profile = "" then .falsy else .truthy p.profile
  quantity := some (.num p.quantity)
  dedication := some (.num p.dedication)
  months := some (.num p.months)
  monthlyValue := some (.num p.monthlyValue)
  justification := if p.justification = "" then .falsy else .truthy p.justification

/-- A normalized material line seen again as a JavaScript value. -/
def matToRaw (m : MatLine) : RawMatLine where
  name := if m.name = "" then .falsy else .truthy m.name
  unit := if m.unit = "" then .falsy else .truthy m.unit
  quantity := some (.num m.quantity)
  unitPrice := some (.num m.unitPrice)
  justification := if m.justification = "" then .falsy else .truthy m.justification

/-- A normalized plan seen again as a decoded JavaScript value. -/
def planToRaw (e : EstimationPlan) : RawPlan where
  assumptions := some e.assumptions
  professionals := some (e.professionals.map profToRaw)
  materials := some (e.materials.map matToRaw)

/-- MAX_IA_INPUT_CHARS from part_002 line 28. -/
def MAX_IA_INPUT_CHARS : ℕ := 120000

/-- The combined variable of the size check (part_002 line 386). -/
def combinedText (objectText metodologiaText tdrText notes : String) : String :=
  objectText ++ "\n\n" ++ metodologiaText ++ "\n\n" ++ tdrText ++ "\n\n" ++ notes

/-- text.slice(0, n), counting characters. -/
def sliceChars (s : String) (n : ℕ) : String := String.mk (s.toList.take n)

/-- The request body fields of POST /ai/costeo that the core logic reads. -/
structure AiRequest where
  objectText : String := ""
  metodologiaText : String := ""
  tdrText : String := ""
  notes : String := ""
  params : RawParams := {}
deriving DecidableEq

/-- The caller-visible outcomes of POST /ai/costeo in the embedding. -/
inductive AiResponse where
  | err503
  | err413 (receivedChars maxChars : ℕ)
  | err502 (detail : String)
  | ok (plan : EstimationPlan) (totals : CostBreakdown)
deriving DecidableEq

/-- POST /ai/costeo from part_002: the 503 configuration guard, the 413 size
check on combined, the oracle round trip, the single JSON decode (502 with a
2000-character excerpt on failure), the plan normalization, and the final
computeTotals call with the clamped parameters spliced over the caller
parameters.  The oracle call is a function of the request (the prompt is
built only from the request and the catalogs); JSON.parse is the parse
parameter, none modelling a parse error. -/
def aiCosteo (openaiConfigured : Bool) (oracle : AiRequest → String)
    (parse : String → Option RawPlan) (req : AiRequest) : AiResponse :=
  if !openaiConfigured then .err503
  else
    let combined := combinedText req.objectText req.metodologiaText req.tdrText req.notes
    if combined.length > MAX_IA_INPUT_CHARS then
      .err413 combined.length MAX_IA_INPUT_CHARS
    else
      let factorPrestacional := factorOf req.params
      let imprevistosPct := imprevistosPctOf req.params
      let margenPct := margenPctOf req.params
      let outputText := oracle req
      match parse outputText with
      | none => .err502 (sliceChars outputText 2000)
      | some plan =>
        let p := normalizePlan plan
        let params2 : RawParams :=
          { req.params with
            factorPrestacional := some (.num factorPrestacional)
            imprevistosPct := some (.num imprevistosPct)
            margenPct := some (.num margenPct) }
        .ok p (computeTotals (p.professionals.map profToRaw) (p.materials.map matToRaw) params2)

/-- The brace-delimited salvage slice of the part_000 variant:
text.slice(firstBrace, lastBrace + 1) when text contains both braces, else
the literal two-character object text. -/
def braceSlice (text : String) : String :=
  let cs := text.toList
  match cs.findIdx? (· = '{'), cs.reverse.findIdx? (· = '}') with
  | some i, some jr =>
      let j := cs.length - 1 - jr
      String.mk ((cs.drop i).take (j + 1 - i))
  | _, _ => String.mk ['{', '}']

/-- The two-stage decode of the part_000 variant: direct parse, then parse of
the brace slice.  none in the second stage models JSON.parse throwing to the
outer catch, which answers a generic HTTP 500 without an excerpt. -/
def decodeWithSalvage (parse : String → Option RawPlan) (text : String) : Option RawPlan :=
  match parse text with
  | some d => some d
  | none => parse (braceSlice text)

/-- A stored costing record (the fields the update logic touches). -/
structure CostingRecord where
  title : String
  objectText : String
  params : RawParams
  professionals : List RawProfLine
  materials : List RawMatLine
  totals : CostBreakdown
  updatedAt : ℕ
deriving DecidableEq

/-- A PUT /costings/:id body: none models a key that is absent (or null,
which the spread and the needRecalc test treat alike for the three
recalculation keys). -/
structure UpdatePayload where
  title : Option String := none
  objectText : Option String := none
  params : Option RawParams := none
  professionals : Option (List RawProfLine) := none
  materials : Option (List RawMatLine) := none
  totals : Option CostBreakdown := none
deriving DecidableEq

/-- PUT /costings/:id from part_002: spread-merge the payload over the
record, stamp updatedAt, and recompute totals with computeTotals on the
merged record exactly when params, professionals or materials came in the
payload. -/
def putCosting (old : CostingRecord) (payload : UpdatePayload) (now : ℕ) : CostingRecord :=
  let merged : CostingRecord :=
    { title := payload.title.getD old.title
      objectText := payload.objectText.getD old.objectText
      params := payload.params.getD old.params
      professionals := payload.professionals.getD old.professionals
      materials := payload.materials.getD old.materials
      totals := payload.totals.getD old.totals
      updatedAt := now }
  let needRecalc := payload.params.isSome || payload.professionals.isSome
    || payload.materials.isSome
  if needRecalc then
    { merged with totals := computeTotals merged.professionals merged.materials merged.params }
  else merged

/-- The material line of the C1 counterexample: quantity 11050/139 at unit
price 1, so the exact production subtotal is 11050/139 (about 79.4964). -/
def cex1Mat : RawMatLine where
  quantity := some (.num (11050 / 139))
  unitPrice := some (.num 1)

/-- The parameters of the C1 counterexample: factorPrestacional 1.58,
imprevistosPct 39, margenPct 30, all within the claimed ranges. -/
def cex1Params : RawParams where
  factorPrestacional := some (.num 1.58)
  imprevistosPct := some (.num 39)
  margenPct := some (.num 30)

/-- The oracle output of the C6 counterexample: commentary wrapping an empty
JSON object, so that a direct decode fails but the brace-delimited slice
decodes. -/
def cex6Text : String := "nota \x7b\x7d fin"

/-- A parse function consistent with JSON.parse on the two strings the C6
counterexample exercises: the bare object text decodes, the wrapped text
does not. -/
def cex6Parse : String → Option RawPlan :=
  fun s => if s = "\x7b\x7d" then some {} else none

/-- The oversized request of the C7 witness: 120001 characters of object
text, which the two-newline separators turn into a combined length of
120007. -/
def bigReq : AiRequest where
  objectText := String.mk (List.replicate 120001 'a')

/-- A concrete stored record for the C10 witness. -/
def witRecord : CostingRecord where
  title := "t"
  objectText := "o"
  params := {}
  professionals := []
  materials := []
  totals := computeTotals [] [] {}
  updatedAt := 0

/-- A C10 witness body carrying only params. -/
def witPayload : UpdatePayload where
  params := some { margenPct := some (.num 10) }

/- ------------------ Theorems ------------------ -/

/-- money q is the integer floor of q + 1/2. -/
theorem money_eq_floor (q : ℚ) : money q = ⌊q + 1 / 2⌋ := by
  rw [money, Rat.floor_def, Rat.floor_def']

/-- money q is at most q + 1/2. -/
theorem money_le (q : ℚ) : (money q : ℚ) ≤ q + 1 / 2 := by
  rw [money_eq_floor]
  exact Int.floor_le _

/-- money q exceeds q - 1/2. -/
theorem money_gt (q : ℚ) : q - 1 / 2 < (money q : ℚ) := by
  rw [money_eq_floor]
  have := Int.lt_floor_add_one (q + 1 / 2)
  linarith

/-- Evaluation rule for money at a concrete rational. -/
theorem money_eq_of (q : ℚ) (n : ℤ) (h1 : (n : ℚ) ≤ q + 1 / 2) (h2 : q + 1 / 2 < n + 1) :
    money q = n := by
  rw [money_eq_floor]
  exact Int.floor_eq_iff.mpr ⟨h1, by exact_mod_cast h2⟩

/-- clampNumber of a finite value already inside the bounds is that value. -/
theorem clampNumber_num_eq (q lo hi fb : ℚ) (h1 : lo ≤ q) (h2 : q ≤ hi) :
    clampNumber (.num q) lo hi fb = q := by
  simp [clampNumber, max_eq_right h1, min_eq_right h2]

/-- The result of clampNumber always lies within the bounds when the
fallback does. -/
theorem clampNumber_mem (n : JSNum) (lo hi fb : ℚ) (h : lo ≤ hi) (h1 : lo ≤ fb)
    (h2 : fb ≤ hi) : lo ≤ clampNumber n lo hi fb ∧ clampNumber n lo hi fb ≤ hi := by
  cases n with
  | nan => exact ⟨h1, h2⟩
  | posInf => exact ⟨by simpa [clampNumber] using h, by simp [clampNumber]⟩
  | negInf => exact ⟨by simp [clampNumber, h], by simp [clampNumber]⟩
  | num q =>
    refine ⟨le_min h (le_max_left _ _), min_le_left _ _⟩

/-- The subtotalProfesionales field is the rounded exact professional sum. -/
theorem computeTotals_subtotalProfesionales (ps : List RawProfLine) (ms : List RawMatLine)
    (params : RawParams) :
    (computeTotals ps ms params).subtotalProfesionales
      = money (subtotalProfesionalesQ (factorOf params) ps) := rfl

/-- The subtotalMateriales field is the rounded exact material sum. -/
theorem computeTotals_subtotalMateriales (ps : List RawProfLine) (ms : List RawMatLine)
    (params : RawParams) :
    (computeTotals ps ms params).subtotalMateriales = money (subtotalMaterialesQ ms) := rfl

/-- The subtotalProduccion field is the rounded sum of the two exact subtotals. -/
theorem computeTotals_subtotalProduccion (ps : List RawProfLine) (ms : List RawMatLine)
    (params : RawParams) :
    (computeTotals ps ms params).subtotalProduccion
      = money (subtotalProfesionalesQ (factorOf params) ps + subtotalMaterialesQ ms) := rfl

/-- The imprevistos field is the rounded exact contingency. -/
theorem computeTotals_imprevistos (ps : List RawProfLine) (ms : List RawMatLine)
    (params : RawParams) :
    (computeTotals ps ms params).imprevistos
      = money ((subtotalProfesionalesQ (factorOf params) ps + subtotalMaterialesQ ms)
          * (imprevistosPctOf params / 100)) := rfl

/-- The totalProduccion field is the rounded exact total. -/
theorem computeTotals_totalProduccion (ps : List RawProfLine) (ms : List RawMatLine)
    (params : RawParams) :
    (computeTotals ps ms params).totalProduccion = money (totalProduccionQ ps ms params) := rfl

/-- The imprevistosPct field is the clamped parameter. -/
theorem computeTotals_imprevistosPct (ps : List RawProfLine) (ms : List RawMatLine)
    (params : RawParams) :
    (computeTotals ps ms params).imprevistosPct = imprevistosPctOf params := rfl

/-- The margenPct field is the clamped parameter. -/
theorem computeTotals_margenPct (ps : List RawProfLine) (ms : List RawMatLine)
    (params : RawParams) :
    (computeTotals ps ms params).margenPct = margenPctOf params := rfl

/-- The ofertaSugerida field: none behind the unreachable margenPct two-digit
guard, otherwise the rounded totalProduccion / (1 - margenPct/100). -/
theorem computeTotals_ofertaSugerida (ps : List RawProfLine) (ms : List RawMatLine)
    (params : RawParams) :
    (computeTotals ps ms params).ofertaSugerida
      = if margenPctOf params ≥ 100 then none
        else some (money (totalProduccionQ ps ms params / (1 - margenPctOf params / 100))) := rfl

/-- jsToStr inverts the truthiness-aware injection of a string. -/
theorem jsToStr_inj (s : String) :
    jsToStr (if s = "" then .falsy else .truthy s) = s := by
  by_cases h : s = "" <;> simp [h, jsToStr]

/-- Re-clamping an already clamped value with the same bounds is the identity. -/
theorem clampNumber_idem (n : JSNum) (lo hi fb fb2 : ℚ) (h : lo ≤ hi) (h1 : lo ≤ fb)
    (h2 : fb ≤ hi) :
    clampNumber (.num (clampNumber n lo hi fb)) lo hi fb2 = clampNumber n lo hi fb := by
  obtain ⟨hl, hr⟩ := clampNumber_mem n lo hi fb h h1 h2
  exact clampNumber_num_eq _ _ _ _ hl hr

/-- Normalizing a re-injected normalized professional line changes nothing. -/
theorem normalizeProf_idem (p : RawProfLine) :
    normalizeProf (profToRaw (normalizeProf p)) = normalizeProf p := by
  simp only [normalizeProf, profToRaw, Option.getD_some, ProfLine.mk.injEq]
  refine ⟨jsToStr_inj _, jsToStr_inj _, ?_, ?_, ?_, ?_, jsToStr_inj _⟩ <;>
    exact clampNumber_idem _ _ _ _ _ (by norm_num) (by norm_num) (by norm_num)

/-- Normalizing a re-injected normalized material line changes nothing. -/
theorem normalizeMat_idem (m : RawMatLine) :
    normalizeMat (matToRaw (normalizeMat m)) = normalizeMat m := by
  simp only [normalizeMat, matToRaw, Option.getD_some, MatLine.mk.injEq]
  refine ⟨jsToStr_inj _, jsToStr_inj _, ?_, ?_, jsToStr_inj _⟩ <;>
    exact clampNumber_idem _ _ _ _ _ (by norm_num) (by norm_num) (by norm_num)

/-- The clamped margenPct is between 0 and 80 for every input. -/
theorem margenPctOf_mem (params : RawParams) :
    0 ≤ margenPctOf params ∧ margenPctOf params ≤ 80 :=
  clampNumber_mem _ _ _ _ (by norm_num) (by norm_num) (by norm_num)

/-- The clamped imprevistosPct is between 0 and 40 for every input. -/
theorem imprevistosPctOf_mem (params : RawParams) :
    0 ≤ imprevistosPctOf params ∧ imprevistosPctOf params ≤ 40 :=
  clampNumber_mem _ _ _ _ (by norm_num) (by norm_num) (by norm_num)

/-- C9: computeTotals clamps margenPct into [0,80] before the
suggested-offer computation, so the null branch guarded by margenPct ≥ 100
is unreachable: for every input whatsoever the returned ofertaSugerida is
non-null. -/
theorem claim9_oferta_never_null (ps : List RawProfLine) (ms : List RawMatLine)
    (params : RawParams) :
    0 ≤ (computeTotals ps ms params).margenPct ∧
    (computeTotals ps ms params).margenPct ≤ 80 ∧
    (computeTotals ps ms params).ofertaSugerida ≠ none := by
  obtain ⟨h0, h80⟩ := margenPctOf_mem params
  refine ⟨?_, ?_, ?_⟩
  · rw [computeTotals_margenPct]; exact h0
  · rw [computeTotals_margenPct]; exact h80
  · rw [computeTotals_ofertaSugerida, if_neg (by linarith)]
    exact fun hcon => Option.noConfusion hcon

/-- C2 counterexample: with supplied margenPct = 100 (and no line items) the
returned ofertaSugerida is some 0, not null: the clamp to [0,80] runs before
the margenPct ≥ 100 test, so the claimed null result never happens. -/
theorem claim2_counterexample :
    (computeTotals [] [] { margenPct := some (.num 100) }).ofertaSugerida = some 0 ∧
    (computeTotals [] [] { margenPct := some (.num 100) }).ofertaSugerida ≠ none := by
  have hm : margenPctOf { margenPct := some (.num 100) } = 80 := by
    simp only [margenPctOf, Option.getD_some]
    norm_num [clampNumber, min_def, max_def]
  have ht : totalProduccionQ [] [] { margenPct := some (.num 100) } = 0 := by
    unfold totalProduccionQ
    norm_num [subtotalProfesionalesQ, subtotalMaterialesQ, List.foldl]
  constructor
  · rw [computeTotals_ofertaSugerida, hm, if_neg (by norm_num), ht]
    have : (0 : ℚ) / (1 - 80 / 100) = 0 := by norm_num
    rw [this, money_eq_of 0 0 (by norm_num) (by norm_num)]
  · rw [computeTotals_ofertaSugerida, hm, if_neg (by norm_num)]
    exact fun hcon => Option.noConfusion hcon

/-- C2 amended: a supplied margenPct of 100 is clamped to 80, so the
returned margenPct is 80 and ofertaSugerida is non-null; a supplied
margenPct of 0 gives ofertaSugerida equal to the returned totalProduccion. -/
theorem claim2_margin_edges (ps : List RawProfLine) (ms : List RawMatLine)
    (params : RawParams) :
    (params.margenPct = some (.num 100) →
      (computeTotals ps ms params).margenPct = 80 ∧
      (computeTotals ps ms params).ofertaSugerida ≠ none) ∧
    (params.margenPct = some (.num 0) →
      (computeTotals ps ms params).ofertaSugerida
        = some ((computeTotals ps ms params).totalProduccion)) := by
  constructor
  · intro h
    have hm : margenPctOf params = 80 := by
      simp only [margenPctOf, h, Option.getD_some]
      norm_num [clampNumber, min_def, max_def]
    constructor
    · rw [computeTotals_margenPct, hm]
    · rw [computeTotals_ofertaSugerida, hm, if_neg (by norm_num)]
      exact fun hcon => Option.noConfusion hcon
  · intro h
    have hm : margenPctOf params = 0 := by
      simp only [margenPctOf, h, Option.getD_some]
      exact clampNumber_num_eq _ _ _ _ (by norm_num) (by norm_num)
    rw [computeTotals_ofertaSugerida, hm, if_neg (by norm_num), computeTotals_totalProduccion]
    have : 1 - (0 : ℚ) / 100 = 1 := by norm_num
    rw [this, div_one]

/-- C2 witness: the amended statement evaluated at concrete inputs. -/
theorem claim2_witness :
    ((computeTotals [] [] { margenPct := some (.num 100) }).margenPct = 80 ∧
      (computeTotals [] [] { margenPct := some (.num 100) }).ofertaSugerida ≠ none) ∧
    (computeTotals [] [] { margenPct := some (.num 0) }).ofertaSugerida
      = some ((computeTotals [] [] { margenPct := some (.num 0) }).totalProduccion) :=
  ⟨(claim2_margin_edges [] [] { margenPct := some (.num 100) }).1 rfl,
    (claim2_margin_edges [] [] { margenPct := some (.num 0) }).2 rfl⟩

/-- C4 counterexample: clampNumber of an infinite conversion does not return
the fallback, contrary to the claim: it clamps to the nearest bound
(Math.max(min, Infinity) = Infinity, Math.min(max, Infinity) = max). -/
theorem claim4_counterexample :
    clampNumber .posInf 0 10 5 = 10 ∧ clampNumber .posInf 0 10 5 ≠ 5 := by
  constructor
  · rfl
  · rw [show clampNumber .posInf 0 10 5 = 10 from rfl]
    norm_num

/-- C4 amended: clampNumber returns the fallback exactly when the numeric
conversion is NaN; an infinite conversion is clamped to the corresponding
bound, a finite conversion is clamped into [min, max]; the function is total
(never throws), and whenever the fallback itself lies within the bounds the
result lies within [min, max]. -/
theorem claim4_clamp_spec (n : JSNum) (lo hi fb : ℚ) (h : lo ≤ hi) :
    clampNumber .nan lo hi fb = fb ∧
    clampNumber .posInf lo hi fb = hi ∧
    clampNumber .negInf lo hi fb = lo ∧
    (∀ q : ℚ, clampNumber (.num q) lo hi fb = min hi (max lo q)) ∧
    (lo ≤ fb → fb ≤ hi → lo ≤ clampNumber n lo hi fb ∧ clampNumber n lo hi fb ≤ hi) := by
  refine ⟨rfl, rfl, ?_, fun q => rfl, fun h1 h2 => clampNumber_mem n lo hi fb h h1 h2⟩
  simp [clampNumber, min_eq_right h]

/-- C4 witness: the amended clamp specification at concrete inputs. -/
theorem claim4_witness :
    (0 : ℚ) ≤ clampNumber (.num 7) 0 10 5 ∧ clampNumber (.num 7) 0 10 5 ≤ 10 :=
  (claim4_clamp_spec (.num 7) 0 10 5 (by norm_num)).2.2.2.2 (by norm_num) (by norm_num)

/-- C3: subtotalProfesionales is the rounded sum over professional lines of
quantity * months * dedication * monthlyValue * factorPrestacional with each
field clamped to its documented range, and on the worked example
(quantity 2, months 6, dedication 0.5, monthlyValue 5000000, factor 1.58,
imprevistos 5, margen 30) the breakdown is 47400000 / 2370000 / 49770000
with suggested offer 71100000. -/
theorem claim3_prof_subtotal :
    (∀ (ps : List RawProfLine) (ms : List RawMatLine) (params : RawParams),
      (computeTotals ps ms params).subtotalProfesionales
        = money (subtotalProfesionalesQ (factorOf params) ps)) ∧
    (computeTotals [exampleProf] [] exampleParams).subtotalProfesionales = 47400000 ∧
    (computeTotals [exampleProf] [] exampleParams).imprevistos = 2370000 ∧
    (computeTotals [exampleProf] [] exampleParams).totalProduccion = 49770000 ∧
    (computeTotals [exampleProf] [] exampleParams).ofertaSugerida = some 71100000 := by
  have hf : factorOf exampleParams = 1.58 := by
    simp only [factorOf, exampleParams, Option.getD_some]
    exact clampNumber_num_eq _ _ _ _ (by norm_num) (by norm_num)
  have hi5 : imprevistosPctOf exampleParams = 5 := by
    simp only [imprevistosPctOf, exampleParams, Option.getD_some]
    exact clampNumber_num_eq _ _ _ _ (by norm_num) (by norm_num)
  have hm30 : margenPctOf exampleParams = 30 := by
    simp only [margenPctOf, exampleParams, Option.getD_some]
    exact clampNumber_num_eq _ _ _ _ (by norm_num) (by norm_num)
  have hs : subtotalProfesionalesQ (factorOf exampleParams) [exampleProf] = 47400000 := by
    rw [hf]
    norm_num [subtotalProfesionalesQ, List.foldl, profCost, exampleProf, clampNumber,
      min_def, max_def]
  have hsm : subtotalMaterialesQ ([] : List RawMatLine) = 0 := rfl
  have ht : totalProduccionQ [exampleProf] [] exampleParams = 49770000 := by
    unfold totalProduccionQ
    rw [hs, hsm, hi5]
    norm_num
  refine ⟨fun ps ms params => computeTotals_subtotalProfesionales ps ms params, ?_, ?_, ?_, ?_⟩
  · rw [computeTotals_subtotalProfesionales, hs]
    exact money_eq_of _ _ (by norm_num) (by norm_num)
  · rw [computeTotals_imprevistos, hs, hsm, hi5]
    exact money_eq_of _ _ (by norm_num) (by norm_num)
  · rw [computeTotals_totalProduccion, ht]
    exact money_eq_of _ _ (by norm_num) (by norm_num)
  · rw [computeTotals_ofertaSugerida, hm30, if_neg (by norm_num), ht]
    have : (49770000 : ℚ) / (1 - 30 / 100) = 71100000 := by norm_num
    rw [this, money_eq_of _ 71100000 (by norm_num) (by norm_num)]

/-- Rounding a sum differs from the sum of the roundings by at most one unit. -/
theorem money_add_bound (a b : ℚ) :
    |((money (a + b) : ℚ)) - ((money a : ℚ) + (money b : ℚ))| ≤ 1 := by
  have h1 := money_le (a + b)
  have h2 := money_gt (a + b)
  have h3 := money_le a
  have h4 := money_gt a
  have h5 := money_le b
  have h6 := money_gt b
  have hz : ((money (a + b) - money a - money b : ℤ) : ℚ)
      = (money (a + b) : ℚ) - ((money a : ℚ) + (money b : ℚ)) := by push_cast; ring
  have hlt : money (a + b) - money a - money b < 2 := by
    have : ((money (a + b) - money a - money b : ℤ) : ℚ) < 2 := by rw [hz]; linarith
    exact_mod_cast this
  have hgt : (-2 : ℤ) < money (a + b) - money a - money b := by
    have : (-2 : ℚ) < ((money (a + b) - money a - money b : ℤ) : ℚ) := by rw [hz]; linarith
    exact_mod_cast this
  have hle : money (a + b) - money a - money b ≤ 1 := by omega
  have hge : (-1 : ℤ) ≤ money (a + b) - money a - money b := by omega
  rw [← hz, abs_le]
  constructor
  · exact_mod_cast hge
  · exact_mod_cast hle

/-- Rounding s(1+r) differs from (rounded s)(1+r) by at most 1 + r/2. -/
theorem money_scale_bound (s r : ℚ) (hr : 0 ≤ r) :
    |(money (s + s * r) : ℚ) - (money s : ℚ) * (1 + r)| ≤ 1 + r / 2 := by
  have h1 := money_le (s + s * r)
  have h2 := money_gt (s + s * r)
  have h3 := money_le s
  have h4 := money_gt s
  have hpos : (0 : ℚ) < 1 + r := by linarith
  have h5 : (money s : ℚ) * (1 + r) ≤ (s + 1 / 2) * (1 + r) :=
    mul_le_mul_of_nonneg_right h3 (le_of_lt hpos)
  have h6 : (s - 1 / 2) * (1 + r) < (money s : ℚ) * (1 + r) :=
    mul_lt_mul_of_pos_right h4 hpos
  rw [abs_le]
  constructor <;> nlinarith

/-- C1 counterexample: with professionals = [] and the cex1 material line,
the returned subtotalProduccion is 79 and totalProduccion is 111, yet
79 * (1 + 39/100) = 109.81: the second claimed equality misses by 1.19,
more than one currency unit. -/
theorem claim1_counterexample :
    (computeTotals [] [cex1Mat] cex1Params).subtotalProduccion = 79 ∧
    (computeTotals [] [cex1Mat] cex1Params).totalProduccion = 111 ∧
    ¬ (|((computeTotals [] [cex1Mat] cex1Params).totalProduccion : ℚ)
        - ((computeTotals [] [cex1Mat] cex1Params).subtotalProduccion : ℚ)
          * (1 + 39 / 100)| ≤ 1) := by
  have hsm : subtotalMaterialesQ [cex1Mat] = 11050 / 139 := by
    norm_num [subtotalMaterialesQ, List.foldl, matCost, cex1Mat, clampNumber, min_def, max_def]
  have hsp : subtotalProfesionalesQ (factorOf cex1Params) [] = 0 := rfl
  have hi39 : imprevistosPctOf cex1Params = 39 := by
    simp only [imprevistosPctOf, cex1Params, Option.getD_some]
    exact clampNumber_num_eq _ _ _ _ (by norm_num) (by norm_num)
  have h1 : (computeTotals [] [cex1Mat] cex1Params).subtotalProduccion = 79 := by
    rw [computeTotals_subtotalProduccion, hsp, hsm]
    exact money_eq_of _ 79 (by norm_num) (by norm_num)
  have ht : totalProduccionQ [] [cex1Mat] cex1Params = 221 / 2 := by
    unfold totalProduccionQ
    rw [hsp, hsm, hi39]
    norm_num
  have h2 : (computeTotals [] [cex1Mat] cex1Params).totalProduccion = 111 := by
    rw [computeTotals_totalProduccion, ht]
    exact money_eq_of _ 111 (by norm_num) (by norm_num)
  refine ⟨h1, h2, ?_⟩
  rw [h1, h2]
  rw [abs_of_pos (by norm_num)]
  norm_num

/-- C1 amended: for parameters within the documented ranges, the returned
(independently rounded) fields satisfy the additive identity within one
currency unit, but the multiplicative identity
totalProduccion = subtotalProduccion * (1 + imprevistosPct/100) only within
1 + imprevistosPct/200 currency units (at most 1.2). -/
theorem claim1_rounding_bounds (ps : List RawProfLine) (ms : List RawMatLine)
    (params : RawParams) (f i m : ℚ)
    (_hf : params.factorPrestacional = some (.num f)) (_hf1 : 1 ≤ f) (_hf3 : f ≤ 3)
    (hi : params.imprevistosPct = some (.num i)) (hi0 : 0 ≤ i) (hi40 : i ≤ 40)
    (_hm : params.margenPct = some (.num m)) (_hm0 : 0 ≤ m) (_hm80 : m < 80) :
    |((computeTotals ps ms params).subtotalProduccion : ℚ)
        - (((computeTotals ps ms params).subtotalProfesionales : ℚ)
            + ((computeTotals ps ms params).subtotalMateriales : ℚ))| ≤ 1 ∧
    |((computeTotals ps ms params).totalProduccion : ℚ)
        - ((computeTotals ps ms params).subtotalProduccion : ℚ) * (1 + i / 100)| ≤ 1 + i / 200 := by
  have hiOf : imprevistosPctOf params = i := by
    simp only [imprevistosPctOf, hi, Option.getD_some]
    exact clampNumber_num_eq _ _ _ _ hi0 hi40
  constructor
  · rw [computeTotals_subtotalProduccion, computeTotals_subtotalProfesionales,
      computeTotals_subtotalMateriales]
    exact money_add_bound _ _
  · rw [computeTotals_totalProduccion, computeTotals_subtotalProduccion]
    have htq : totalProduccionQ ps ms params
        = (subtotalProfesionalesQ (factorOf params) ps + subtotalMaterialesQ ms)
          + (subtotalProfesionalesQ (factorOf params) ps + subtotalMaterialesQ ms)
            * (i / 100) := by
      unfold totalProduccionQ
      rw [hiOf]
    rw [htq]
    have hb := money_scale_bound
      (subtotalProfesionalesQ (factorOf params) ps + subtotalMaterialesQ ms) (i / 100)
      (by linarith)
    have : 1 + i / 100 / 2 = 1 + i / 200 := by ring
    rw [this] at hb
    exact hb

/-- C1 witness: the amended bounds evaluated on the worked example
(imprevistosPct 5). -/
theorem claim1_witness :
    |((computeTotals [exampleProf] [] exampleParams).subtotalProduccion : ℚ)
        - (((computeTotals [exampleProf] [] exampleParams).subtotalProfesionales : ℚ)
            + ((computeTotals [exampleProf] [] exampleParams).subtotalMateriales : ℚ))| ≤ 1 ∧
    |((computeTotals [exampleProf] [] exampleParams).totalProduccion : ℚ)
        - ((computeTotals [exampleProf] [] exampleParams).subtotalProduccion : ℚ)
          * (1 + 5 / 100)| ≤ 1 + 5 / 200 :=
  claim1_rounding_bounds [exampleProf] [] exampleParams 1.58 5 30 rfl (by norm_num)
    (by norm_num) rfl (by norm_num) (by norm_num) rfl (by norm_num) (by norm_num)

/-- Mapping the normalize-reinject-normalize composite over professional
lines equals a single normalization pass. -/
theorem map_normalizeProf_round (l : List RawProfLine) :
    ((l.map normalizeProf).map profToRaw).map normalizeProf = l.map normalizeProf := by
  induction l with
  | nil => rfl
  | cons a t ih => simp only [List.map_cons, normalizeProf_idem, ih]

/-- Mapping the normalize-reinject-normalize composite over material lines
equals a single normalization pass. -/
theorem map_normalizeMat_round (l : List RawMatLine) :
    ((l.map normalizeMat).map matToRaw).map normalizeMat = l.map normalizeMat := by
  induction l with
  | nil => rfl
  | cons a t ih => simp only [List.map_cons, normalizeMat_idem, ih]

/-- C5: the /ai/costeo normalization step is idempotent: normalizing the
re-injected normalized plan returns the same EstimationPlan. -/
theorem claim5_normalize_idempotent (plan : RawPlan) :
    normalizePlan (planToRaw (normalizePlan plan)) = normalizePlan plan := by
  simp only [normalizePlan, planToRaw, Option.getD_some, EstimationPlan.mk.injEq]
  exact ⟨trivial, map_normalizeProf_round _, map_normalizeMat_round _⟩

/-- The margenPosible field of computeTotals, by cases on the raw
presupuestoFijo value. -/
theorem computeTotals_margenPosible (ps : List RawProfLine) (ms : List RawMatLine)
    (params : RawParams) :
    (computeTotals ps ms params).margenPosible
      = match params.presupuestoFijo with
        | .missing => none
        | .emptyStr => none
        | .given n =>
          if 0 < clampNumber n 0 1000000000000000 0 then
            some (round2 ((clampNumber n 0 1000000000000000 0 - totalProduccionQ ps ms params)
              / clampNumber n 0 1000000000000000 0 * 100))
          else none := by
  cases h : params.presupuestoFijo with
  | missing => simp only [computeTotals, h]
  | emptyStr => simp only [computeTotals, h]
  | given n =>
    simp only [computeTotals, h]
    rw [show totalProduccionQ ps ms params
        = subtotalProfesionalesQ (factorOf params) ps + subtotalMaterialesQ ms
          + (subtotalProfesionalesQ (factorOf params) ps + subtotalMaterialesQ ms)
            * (imprevistosPctOf params / 100) from rfl]

/-- C8: margenPosible is (presupuestoFijo - totalProduccion) / presupuestoFijo
* 100 rounded to two decimals, with totalProduccion the exact pre-rounding
total, exactly when presupuestoFijo was supplied (not null or empty) and its
clamped value is positive; otherwise it is null. -/
theorem claim8_margen_posible (ps : List RawProfLine) (ms : List RawMatLine)
    (params : RawParams) :
    (∀ n : JSNum, params.presupuestoFijo = .given n →
        0 < clampNumber n 0 1000000000000000 0 →
        (computeTotals ps ms params).margenPosible
          = some (round2 ((clampNumber n 0 1000000000000000 0 - totalProduccionQ ps ms params)
              / clampNumber n 0 1000000000000000 0 * 100))) ∧
    (∀ n : JSNum, params.presupuestoFijo = .given n →
        clampNumber n 0 1000000000000000 0 ≤ 0 →
        (computeTotals ps ms params).margenPosible = none) ∧
    ((params.presupuestoFijo = .missing ∨ params.presupuestoFijo = .emptyStr) →
      (computeTotals ps ms params).margenPosible = none) := by
  refine ⟨?_, ?_, ?_⟩
  · intro n h hp
    rw [computeTotals_margenPosible, h]
    exact if_pos hp
  · intro n h hn
    rw [computeTotals_margenPosible, h]
    exact if_neg (not_lt.mpr hn)
  · rintro (h | h) <;> rw [computeTotals_margenPosible, h]

/-- C8 witness: one material line of cost 100 with presupuestoFijo 200 and
imprevistosPct 0 gives margenPosible 50. -/
theorem claim8_witness :
    (computeTotals [] [{ quantity := some (.num 100), unitPrice := some (.num 1) }]
        { imprevistosPct := some (.num 0),
          presupuestoFijo := .given (.num 200) }).margenPosible = some 50 := by
  set ms : List RawMatLine := [{ quantity := some (.num 100), unitPrice := some (.num 1) }]
    with hms
  set prm : RawParams :=
    { imprevistosPct := some (.num 0), presupuestoFijo := .given (.num 200) } with hprm
  have hc : clampNumber (.num 200) 0 1000000000000000 0 = 200 :=
    clampNumber_num_eq _ _ _ _ (by norm_num) (by norm_num)
  have h := (claim8_margen_posible [] ms prm).1 (.num 200) rfl (by rw [hc]; norm_num)
  rw [h, hc]
  have hsm : subtotalMaterialesQ ms = 100 := by
    rw [hms]
    norm_num [subtotalMaterialesQ, List.foldl, matCost, clampNumber, min_def, max_def]
  have hi0 : imprevistosPctOf prm = 0 := by
    rw [hprm]
    simp only [imprevistosPctOf, Option.getD_some]
    exact clampNumber_num_eq _ _ _ _ (by norm_num) (by norm_num)
  have ht : totalProduccionQ [] ms prm = 100 := by
    unfold totalProduccionQ
    rw [show subtotalProfesionalesQ (factorOf prm) [] = 0 from rfl, hsm, hi0]
    norm_num
  rw [ht]
  have : ((200 : ℚ) - 100) / 200 * 100 = 50 := by norm_num
  rw [this, round2, money_eq_of _ 5000 (by norm_num) (by norm_num)]
  norm_num

/-- C6 amended: in the /ai/costeo handler of part_002 only the direct decode
is attempted: whenever the size check passes and the direct decode of the
oracle output fails, the call fails immediately with the 502 response
carrying outputText.slice(0, 2000), with no second brace-delimited decode,
no retry, and no silent empty-plan fallback.  (The brace-salvage second
stage exists only in the part_000 variant, modelled by decodeWithSalvage,
whose total failure surfaces as a generic 500 without an excerpt.) -/
theorem claim6_direct_decode_only (oracle : AiRequest → String)
    (parse : String → Option RawPlan) (req : AiRequest)
    (hsize : ¬ (combinedText req.objectText req.metodologiaText req.tdrText req.notes).length
        > MAX_IA_INPUT_CHARS)
    (hparse : parse (oracle req) = none) :
    aiCosteo true oracle parse req = .err502 (sliceChars (oracle req) 2000) := by
  simp [aiCosteo, hsize, hparse]

/-- C6 counterexample: the direct decode of the oracle output fails and the
brace-delimited slice would decode, yet the part_002 handler already
answers 502 with the excerpt: the claimed second decode attempt does not
exist in this handler. -/
theorem claim6_counterexample :
    aiCosteo true (fun _ => cex6Text) cex6Parse {} = .err502 cex6Text ∧
    cex6Parse cex6Text = none ∧
    cex6Parse (braceSlice cex6Text) = some {} := by
  refine ⟨by decide, by decide, by decide⟩

/-- C6 witness: the amended theorem applied to a concrete failing parse. -/
theorem claim6_witness :
    aiCosteo true (fun _ => "zz") (fun _ => none) {} = .err502 (sliceChars "zz" 2000) :=
  claim6_direct_decode_only (fun _ => "zz") (fun _ => none) {} (by decide) rfl

/-- C7: with the oracle configured, POST /ai/costeo answers the 413
InputTooLarge response exactly when the combined source text exceeds
MAX_IA_INPUT_CHARS; the response carries the received and the maximum
character counts, and no oracle call and no parse is made (the outcome does
not depend on them). -/
theorem claim7_input_too_large (oracle oracle2 : AiRequest → String)
    (parse parse2 : String → Option RawPlan) (req : AiRequest) :
    ((combinedText req.objectText req.metodologiaText req.tdrText req.notes).length
        > MAX_IA_INPUT_CHARS →
      aiCosteo true oracle parse req
        = .err413 (combinedText req.objectText req.metodologiaText req.tdrText req.notes).length
            MAX_IA_INPUT_CHARS ∧
      aiCosteo true oracle parse req = aiCosteo true oracle2 parse2 req) ∧
    (¬ (combinedText req.objectText req.metodologiaText req.tdrText req.notes).length
        > MAX_IA_INPUT_CHARS →
      ∀ a b : ℕ, aiCosteo true oracle parse req ≠ .err413 a b) := by
  constructor
  · intro h
    constructor <;> simp [aiCosteo, h]
  · intro h a b
    simp only [aiCosteo, Bool.not_true, Bool.false_eq_true, if_false, if_neg h]
    cases hp : parse (oracle req) with
    | none => exact fun hcon => AiResponse.noConfusion hcon
    | some plan => exact fun hcon => AiResponse.noConfusion hcon

/-- C7 witness: the oversized request yields exactly the 413 with both
counts, independent of the oracle, and a small request never yields 413. -/
theorem claim7_witness :
    aiCosteo true (fun _ => "") (fun _ => none) bigReq = .err413 120007 120000 ∧
    aiCosteo true (fun _ => "") (fun _ => none) {} ≠ .err413 0 0 := by
  have hlen : (combinedText bigReq.objectText bigReq.metodologiaText bigReq.tdrText
      bigReq.notes).length = 120007 := by
    show (bigReq.objectText ++ "\n\n" ++ "" ++ "\n\n" ++ "" ++ "\n\n" ++ "").length = 120007
    rw [String.length_append, String.length_append, String.length_append,
      String.length_append, String.length_append, String.length_append]
    rw [show bigReq.objectText.length = 120001 from by
      rw [show bigReq.objectText = String.mk (List.replicate 120001 'a') from rfl,
        String.length_mk, List.length_replicate]]
    rfl
  constructor
  · have h := (claim7_input_too_large (fun _ => "") (fun _ => "")
      (fun _ => none) (fun _ => none) bigReq).1 (by rw [hlen]; decide)
    rw [h.1, hlen]
    rfl
  · exact (claim7_input_too_large (fun _ => "") (fun _ => "")
      (fun _ => none) (fun _ => none) {}).2 (by decide) 0 0

/-- C10: PUT /costings/:id leaves the stored totals unchanged when the body
carries none of params, professionals, materials, totals (only updatedAt and
the supplied top-level fields change), and recomputes totals with
computeTotals on the merged record as soon as one of params, professionals,
materials is present. -/
theorem claim10_put_totals (old : CostingRecord) (payload : UpdatePayload) (now : ℕ) :
    (payload.params = none → payload.professionals = none → payload.materials = none →
      payload.totals = none →
      (putCosting old payload now).totals = old.totals ∧
      (putCosting old payload now).params = old.params ∧
      (putCosting old payload now).professionals = old.professionals ∧
      (putCosting old payload now).materials = old.materials ∧
      (putCosting old payload now).updatedAt = now ∧
      (putCosting old payload now).title = payload.title.getD old.title) ∧
    ((payload.params ≠ none ∨ payload.professionals ≠ none ∨ payload.materials ≠ none) →
      (putCosting old payload now).totals
        = computeTotals (payload.professionals.getD old.professionals)
            (payload.materials.getD old.materials) (payload.params.getD old.params)) := by
  constructor
  · intro h1 h2 h3 h4
    simp [putCosting, h1, h2, h3, h4]
  · intro h
    have hb : (payload.params.isSome || payload.professionals.isSome
        || payload.materials.isSome) = true := by
      rcases h with h | h | h <;> simp [Option.isSome_iff_ne_none, h]
    simp [putCosting, hb]

/-- C10 witness: an empty body leaves totals unchanged; a body carrying only
params triggers recomputation on the merged record. -/
theorem claim10_witness :
    (putCosting witRecord {} 7).totals = witRecord.totals ∧
    (putCosting witRecord witPayload 7).totals
      = computeTotals [] [] { margenPct := some (.num 10) } := by
  constructor
  · exact ((claim10_put_totals witRecord {} 7).1 rfl rfl rfl rfl).1
  · have h := (claim10_put_totals witRecord witPayload 7).2 (Or.inl (by simp [witPayload]))
    simpa [witPayload, witRecord] using h

end Aitec

